import Mathlib

/-
  Verification of the dynamic-topology remesher core
  (source/blender/blenkernel/intern/dyntopo.c) against its
  natural-language specification.

  Shallow embedding conventions:
  * float values are modelled as exact rationals;
  * BMesh vertices are identified by natural numbers;
  * DYNTOPO_NODE_NONE is the integer -1, as in the source;
  * stateful scans are modelled as pure functions on explicit state.
-/

/-- A 3-component vector of rationals, modelling a float[3]. -/
structure Vec3 where
  x : ℚ
  y : ℚ
  z : ℚ
deriving DecidableEq, Repr

/-- Embeds dot_v3v3 from the math library used by dyntopo.c. -/
def dot_v3v3 (a b : Vec3) : ℚ :=
  a.x * b.x + a.y * b.y + a.z * b.z

/-- Embeds maskcb_get (dyntopo.c lines 977-990): averaged per-vertex mask
callback over the two edge endpoints, or 1.0 when the callback is absent. -/
def maskcb_get (mask_cb : Option (Nat → ℚ)) (v1 v2 : Nat) : ℚ :=
  match mask_cb with
  | some f => (f v1 + f v2) * (1/2)
  | none => 1

/- ------------------------------------------------------------------ -/
/- C1: survivor choice in pbvh_bmesh_collapse_edge (lines 2424-2433).
   The source reads:
     if (DYNTOPO_MASK(cd, v1) < DYNTOPO_MASK(cd, v2)) { v_del = v1; v_conn = v2; }
     else                                             { v_del = v2; v_conn = v1; }
   The result pair is (v_del, v_conn). -/

/-- Embeds the survivor selection of pbvh_bmesh_collapse_edge: given the
paint-mask values of the two popped endpoints, returns (v_del, v_conn). -/
def collapse_survivor (mask_v1 mask_v2 : ℚ) (v1 v2 : Nat) : Nat × Nat :=
  if mask_v1 < mask_v2 then (v1, v2) else (v2, v1)

/- ------------------------------------------------------------------ -/
/- C2: quad-diagonal choice in cleanup_valence_3_4 (lines 3014-3062).
   th1 is the dot product of the normals of triangles
   (ls0,ls1,ls2) and (ls0,ls2,ls3), which share diagonal (ls0,ls2);
   th2 is the dot product of the normals of triangles
   (ls1,ls2,ls3) and (ls1,ls3,ls0), which share diagonal (ls1,ls3).
   When th1 > th2 the code sets flipped = true and rotates ls by one,
   after which it emits the triangles (ls[0],ls[1],ls[2]) and
   (ls[0],ls[2],ls[3]) of the rotated array. -/

/-- Embeds the flip decision of the valence-4 branch: flipped iff th1 > th2. -/
def val4_flipped (th1 th2 : ℚ) : Bool :=
  decide (th1 > th2)

/-- Embeds the rotation of the fan array ls applied when flipped
(ls[j] = ls2[(j + 1) % 4]). -/
def val4_ls (ls : Fin 4 → Nat) (th1 th2 : ℚ) : Fin 4 → Nat :=
  if val4_flipped th1 th2 then fun j => ls (j + 1) else ls

/-- First emitted triangle of the valence-4 branch: (ls[0], ls[1], ls[2])
of the possibly rotated array. -/
def val4_tri1 (ls : Fin 4 → Nat) (th1 th2 : ℚ) : Nat × Nat × Nat :=
  (val4_ls ls th1 th2 0, val4_ls ls th1 th2 1, val4_ls ls th1 th2 2)

/-- Second emitted triangle of the valence-4 branch: (ls[0], ls[2], ls[3])
of the possibly rotated array. -/
def val4_tri2 (ls : Fin 4 → Nat) (th1 th2 : ℚ) : Nat × Nat × Nat :=
  (val4_ls ls th1 th2 0, val4_ls ls th1 th2 2, val4_ls ls th1 th2 3)

/-- The diagonal shared by the two emitted triangles: (ls[0], ls[2]) of the
possibly rotated array. -/
def val4_diagonal (ls : Fin 4 → Nat) (th1 th2 : ℚ) : Nat × Nat :=
  (val4_ls ls th1 th2 0, val4_ls ls th1 th2 2)

/-- The normal dot product belonging to the diagonal that the code emits:
th2 when flipped (diagonal ls1-ls3), th1 otherwise (diagonal ls0-ls2). -/
def val4_chosen_dot (th1 th2 : ℚ) : ℚ :=
  if val4_flipped th1 th2 then th2 else th1

/-- Concrete valence-4 fan used as a counterexample input: vertices 10..13. -/
def val4_fan_example : Fin 4 → Nat :=
  fun j => 10 + j.val

/- ------------------------------------------------------------------ -/
/- C3: split-pattern table and phase-2 mask of pbvh_split_edges. -/

/-- Embeds the splitmap table (dyntopo.c lines 3464-3509).  Each row is
{numverts, vert_connections...}; rows whose first entry is -1 mean no
split.  Indices outside the populated set are the {-1} filler rows; the
table has splitmap_size rows in the source. -/
def splitmap : Nat → List Int
  | 1 => [4, 2, -1, -1, -1]
  | 2 => [4, -1, 3, -1, -1]
  | 4 => [4, -1, -1, 0, -1]
  | 5 => [5, 2, -1, 4, -1, -1]
  | 8 => [4, -1, -1, -1, 1]
  | 9 => [5, 2, -1, -1, 0, -1]
  | 10 => [5, -1, 3, -1, 0, -1]
  | 18 => [5, -1, 3, -1, -1, 1]
  | 20 => [5, -1, -1, 4, -1, 1]
  | 21 => [6, 2, -1, 4, -1, 0, -1]
  | 42 => [6, -1, 3, -1, 5, -1, 1, -1]
  | _ => [-1]

/-- Number of rows of the splitmap array (ARRAY_SIZE(splitmap) in the
phase-2 bound check at line 3735). -/
def splitmap_size : Nat := 43

/-- Embeds the phase-2 mask computation of pbvh_split_edges
(lines 3726-3733): walking the loops of the face in order, bit j is set
exactly when the j-th loop vertex carries the SPLIT_TAG scratch flag.
The face is given as the cyclic list of those per-vertex flags. -/
def face_split_mask : List Bool → Nat
  | [] => 0
  | t :: rest => (if t then 1 else 0) + 2 * face_split_mask rest

/-- Modelled from the spec: the atomic edge-split primitive
(BM_log_edge_split_do, provided by the log collaborator, is not part of
this repository).  Per spec section 4.5 phase 1 it splits the edge at
parameter 0.5 and returns the new midpoint vertex, and per phase 2 the
affected face is thereby enlarged, the midpoint appearing between the
split edge endpoints in the face loop.  pbvh_split_edges tags exactly
the new midpoints with SPLIT_TAG (line 3640) after clearing the flag on
all original vertices (line 3556).  For a triangle whose edges 0, 1, 2
(edge j joining corners j and j+1) were tagged t0, t1, t2, the enlarged
face has this cyclic list of per-vertex SPLIT_TAG flags. -/
def split_face_tags (t0 t1 t2 : Bool) : List Bool :=
  [false] ++ (if t0 then [true] else []) ++
  [false] ++ (if t1 then [true] else []) ++
  [false] ++ (if t2 then [true] else [])

/-- The mask the claim describes: bit i set exactly when the i-th edge of
the original triangle was tagged for splitting (a value in [0,7]). -/
def claimed_edge_mask (t0 t1 t2 : Bool) : Nat :=
  (if t0 then 1 else 0) + (if t1 then 2 else 0) + (if t2 then 4 else 0)

/- ------------------------------------------------------------------ -/
/- C4 and C5: the collapse queue scan, merge and pop logic. -/

/-- Embeds the per-edge step of the direct collapse scan
short_edge_queue_task_cb (lines 1595-1609): an edge whose mask weight w
is 0 is skipped; otherwise its weighted squared length len_sq/(w*w) is
compared with the lower threshold and, on a match, the edge is pushed to
the thread-local scratch (the recursive expansion pushes l_edge first).
Returns true when the edge is pushed. -/
def short_scan_edge_pushes (w len_sq limit_len_sq : ℚ) : Bool :=
  if w = 0 then false
  else decide (len_sq / (w * w) < limit_len_sq)

/-- Per-vertex data read by the single-threaded merge of
short_edge_queue_create: the DYNVERT_ALL_CORNER test and the
DYNVERT_ALL_BOUNDARY bit subset of the vertex flag word. -/
structure MergeVert where
  all_corner : Bool
  all_boundary : Nat
deriving DecidableEq, Repr

/-- Embeds the merge step of short_edge_queue_create (lines 2010-2039)
for one scratch edge: skip when either endpoint is a corner or the two
DYNVERT_ALL_BOUNDARY bit sets differ; otherwise insert with priority
w / (w2 * w2) when the mask weight w2 is positive, and with the fixed
priority 100000 when it is not (avoiding the division).  Returns the
priority used, or none when the edge is skipped. -/
def short_merge_action (len_sq w2 : ℚ) (mv1 mv2 : MergeVert) : Option ℚ :=
  if mv1.all_corner || mv2.all_corner then none
  else if mv1.all_boundary != mv2.all_boundary then none
  else some (if w2 > 0 then len_sq / (w2 * w2) else 100000)

/-- A popped collapse candidate, as re-examined by
pbvh_bmesh_collapse_short_edges (lines 2788-2824): the two queue
vertices after walking the deleted-vertices chain (none when the chain
ends in a fully removed vertex), whether an edge still joins them, the
number of loops in its radial cycle, its current squared length
(calc_weighted_edge_collapse, which carries no mask weight), and the two
leaf-owner indices (DYNTOPO_NODE_NONE is -1). -/
structure PopCandidate where
  chain_v1 : Option Nat
  chain_v2 : Option Nat
  edge_exists : Bool
  radial_count : Nat
  len_sq : ℚ
  v1_node : Int
  v2_node : Int
deriving DecidableEq, Repr

/-- Embeds the pop-time validity filter of pbvh_bmesh_collapse_short_edges:
returns true when the candidate is passed on to pbvh_bmesh_collapse_edge.
The non-manifold test of line 2801 (e->l and e->l differs from
e->l->radial_next->radial_next) rejects exactly radial cycles of three
or more loops. -/
def collapse_pop_proceeds (min_len_sq : ℚ) (c : PopCandidate) : Bool :=
  match c.chain_v1, c.chain_v2 with
  | none, _ => false
  | _, none => false
  | some a, some b =>
    if a = b then false
    else if !c.edge_exists then false
    else if 3 ≤ c.radial_count then false
    else if min_len_sq ≤ c.len_sq then false
    else if c.v1_node = -1 || c.v2_node = -1 then false
    else true

/-- Boundary data of the popped endpoints as the claim C5 describes them;
the pop loop of the source never reads these. -/
structure PopBoundary where
  v1_corner : Bool
  v2_corner : Bool
  v1_boundary : Nat
  v2_boundary : Nat
deriving DecidableEq, Repr

/-- The skip predicate exactly as claim C5 states it (written from the
claim, for comparison with collapse_pop_proceeds): skip when no edge
exists, an owner is NONE, the length is no longer below the threshold,
the edge does not have exactly 2 incident loops, or the endpoints have
incompatible boundary classes or one is a corner. -/
def claimed_pop_skips (min_len_sq : ℚ) (c : PopCandidate) (b : PopBoundary) : Bool :=
  !c.edge_exists || c.v1_node == -1 || c.v2_node == -1 ||
  decide (min_len_sq ≤ c.len_sq) || c.radial_count != 2 ||
  b.v1_boundary != b.v2_boundary || b.v1_corner || b.v2_corner

/- ------------------------------------------------------------------ -/
/- C6: seam preservation gate of pbvh_bmesh_collapse_edge (2401-2420). -/

/-- Embeds the seam gate of pbvh_bmesh_collapse_edge: when the popped
edge carries BM_ELEM_SEAM, each endpoint contributes 1 when some other
incident edge is a seam edge; the collapse proceeds only when the count
reaches 2.  The incident edges other than the popped one are given by
their seam flags.  Returns true when the collapse proceeds past the
gate. -/
def collapse_seam_proceeds (e_seam : Bool) (v1_other_seams v2_other_seams : List Bool) : Bool :=
  if e_seam then
    decide (2 ≤ ((if v1_other_seams.any id then 1 else 0) +
                 (if v2_other_seams.any id then 1 else 0) : Nat))
  else true

/- ------------------------------------------------------------------ -/
/- C7: the SKINNY_EDGE_FIX rate limiter of BKE_pbvh_bmesh_update_topology
   (lines 3182-3204). -/

/-- Embeds the collapse-phase scale factor: starting from 1.0, when the
queue statistics counted at least one edge, the sum of lengths is divided
by the count, a zero maximum is replaced by 0.0001, and when both the
minimum target length and the average are positive the factor becomes
avg / (min_target * 0.5 + emax * 0.5) clamped by MAX2 with 0.25 and MIN2
with 5.0. -/
def skinny_scale (bm_min_edge_len avg_sum max_elen totedge : ℚ) : ℚ :=
  if 0 < totedge then
    let avg := avg_sum / totedge
    let emax := if max_elen = 0 then 1/10000 else max_elen
    if 0 < bm_min_edge_len ∧ 0 < avg then
      min (max (avg / (bm_min_edge_len * (1/2) + emax * (1/2))) (1/4)) 5
    else 1
  else 1

/-- Embeds max_steps = (int)((float)DYNTOPO_MAX_ITER * ratio) with
DYNTOPO_MAX_ITER = 4096; the factor is non-negative so the C cast is a
floor. -/
def collapse_max_steps (scale : ℚ) : Int :=
  Int.floor (4096 * scale)

/-- The scale factor exactly as claim C7 states it: the clamped quotient,
with no further guards. -/
def claimed_scale (bm_min_edge_len avg_sum max_elen totedge : ℚ) : ℚ :=
  min (max ((avg_sum / totedge) / (bm_min_edge_len * (1/2) + max_elen * (1/2))) (1/4)) 5

/- ------------------------------------------------------------------ -/
/- C8: front-face culling in the two scan callbacks. -/

/-- Embeds the front-face test of long_edge_queue_task_cb (lines
1504-1510): with use_view_normal set, a face whose normal has negative
dot product with the view normal is skipped before any of its edges are
examined. -/
def long_scan_culls (use_view_normal : Bool) (fno view_normal : Vec3) : Bool :=
  use_view_normal && decide (dot_v3v3 fno view_normal < 0)

/-- The edges the long-edge (subdivide) scan pushes from one face: none
when the face is culled by the front-face test, none when the face fails
the region test, its candidate edges otherwise. -/
def long_scan_face_edges (use_view_normal : Bool) (fno view_normal : Vec3)
    (in_range : Bool) (edges : List Nat) : List Nat :=
  if long_scan_culls use_view_normal fno view_normal then []
  else if in_range then edges
  else []

/-- Embeds the front-face test of short_edge_queue_task_cb (lines
1582-1589), identical in form to the long-edge scan. -/
def short_scan_culls (use_view_normal : Bool) (fno view_normal : Vec3) : Bool :=
  use_view_normal && decide (dot_v3v3 fno view_normal < 0)

/-- The edges the short-edge (collapse) scan pushes from one face. -/
def short_scan_face_edges (use_view_normal : Bool) (fno view_normal : Vec3)
    (in_range : Bool) (edges : List Nat) : List Nat :=
  if short_scan_culls use_view_normal fno view_normal then []
  else if in_range then edges
  else []

/- ------------------------------------------------------------------ -/
/- C9: edge_queue_insert (lines 1182-1212). -/

/-- The accumulated statistics and heap contents of an EdgeQueueContext,
as touched by edge_queue_insert.  Heap entries are (priority, v1, v2). -/
structure EdgeQueueStats where
  avg_elen : ℚ
  max_elen : ℚ
  min_elen : ℚ
  totedge : ℚ
  elems : List (ℚ × Nat × Nat)
deriving DecidableEq, Repr

/-- Embeds edge_queue_insert: when the paint-mask layer is absent
(cd_vert_mask_offset of -1) or neither endpoint carries BM_ELEM_HIDDEN,
the edge length is accumulated into the statistics and the vertex pair
is pushed with the given priority; otherwise nothing happens.  The
length (len_v3v3 of the endpoints in the source) is passed in. -/
def edge_queue_insert (cd_vert_mask_offset : Int) (hidden1 hidden2 : Bool)
    (v1 v2 : Nat) (len pri : ℚ) (s : EdgeQueueStats) : EdgeQueueStats :=
  if cd_vert_mask_offset == -1 || !(hidden1 || hidden2) then
    { avg_elen := s.avg_elen + len
      max_elen := max s.max_elen len
      min_elen := min s.min_elen len
      totedge := s.totedge + 1
      elems := (pri, v1, v2) :: s.elems }
  else s

/- ------------------------------------------------------------------ -/
/- C10: the UPDATE_TOPOLOGY flag clearing at the end of
   BKE_pbvh_bmesh_update_topology (lines 3332-3372). -/

/-- Per-node flag state read by the clearing pass. -/
structure NodeState where
  is_leaf : Bool
  update_topo : Bool
  fully_hidden : Bool
deriving DecidableEq, Repr

/-- Embeds the flag clearing applied to one node: when the call modified
the mesh, the PBVH_UpdateTopology flag is cleared on leaves that carry
it and are not fully hidden; when nothing was modified, it is cleared on
every leaf that carries it. -/
def update_topology_flag_clear (modified : Bool) (n : NodeState) : NodeState :=
  if modified then
    if n.is_leaf && n.update_topo && !n.fully_hidden then
      { n with update_topo := false }
    else n
  else
    if n.is_leaf && n.update_topo then
      { n with update_topo := false }
    else n

/-- The clearing pass over the whole node array. -/
def update_topology_clear_pass (modified : Bool) (nodes : List NodeState) : List NodeState :=
  nodes.map (update_topology_flag_clear modified)

/- ================================================================== -/
/- Theorems -/

/-- Claim C1, counterexample: with equal paint-mask values on the two
popped endpoints (both 0), pbvh_bmesh_collapse_edge retains the first
endpoint v1 = 10 as v_conn (second component), not the second endpoint
v2 = 20 as the claim states. -/
theorem C1_tie_counterexample :
    (collapse_survivor 0 0 10 20).2 = 10 ∧ (10 : Nat) ≠ 20 := by
  refine ⟨?_, by decide⟩
  simp [collapse_survivor]

/-- Claim C1 (amended): the endpoint with the strictly higher mask value
is retained as v_conn and the other becomes v_del; when both masks are
equal, the first endpoint v1 is retained. -/
theorem C1_survivor_amended : ∀ (m1 m2 : ℚ) (v1 v2 : Nat),
    (m1 < m2 → collapse_survivor m1 m2 v1 v2 = (v1, v2)) ∧
    (m2 < m1 → collapse_survivor m1 m2 v1 v2 = (v2, v1)) ∧
    (m1 = m2 → collapse_survivor m1 m2 v1 v2 = (v2, v1)) := by
  intro m1 m2 v1 v2
  refine ⟨fun h => ?_, fun h => ?_, fun h => ?_⟩
  · simp [collapse_survivor, h]
  · simp [collapse_survivor, not_lt.mpr h.le]
  · simp [collapse_survivor, h]

/-- Claim C1 witness: at equal masks 1 = 1 the survivor pair is
(v_del, v_conn) = (4, 3), retaining the first endpoint 3. -/
theorem C1_survivor_amended_witness :
    collapse_survivor 1 1 3 4 = (4, 3) :=
  (C1_survivor_amended 1 1 3 4).2.2 rfl

/-- Claim C2, counterexample: with th1 = 1 (diagonal ls0-ls2) and
th2 = 0 (diagonal ls1-ls3), the code flips and emits the triangles
(11,12,13) and (11,13,10) along diagonal (11,13), whose normal dot
product is 0 — the smaller of the two candidates, not the larger 1 the
claim states. -/
theorem C2_diagonal_counterexample :
    val4_diagonal val4_fan_example 1 0 = (11, 13) ∧
    val4_tri1 val4_fan_example 1 0 = (11, 12, 13) ∧
    val4_tri2 val4_fan_example 1 0 = (11, 13, 10) ∧
    val4_chosen_dot 1 0 = 0 ∧
    max (1 : ℚ) 0 = 1 ∧
    val4_chosen_dot 1 0 ≠ max (1 : ℚ) 0 := by
  have hch : val4_chosen_dot 1 0 = 0 := by
    norm_num [val4_chosen_dot, val4_flipped]
  have hmax : max (1 : ℚ) 0 = 1 := by norm_num
  refine ⟨by decide, by decide, by decide, hch, hmax, ?_⟩
  rw [hch, hmax]
  norm_num

/-- Claim C2 (amended): cleanup_valence_3_4 emits the two replacement
triangles along the diagonal whose two resulting triangle normals have
the SMALLER dot product: it flips to the second diagonal (ls1, ls3)
exactly when the first diagonal has the strictly larger dot product, so
the chosen dot product is min th1 th2. -/
theorem C2_diagonal_amended : ∀ (ls : Fin 4 → Nat) (th1 th2 : ℚ),
    val4_chosen_dot th1 th2 = min th1 th2 ∧
    val4_tri1 ls th1 th2 =
      (if th2 < th1 then (ls 1, ls 2, ls 3) else (ls 0, ls 1, ls 2)) ∧
    val4_tri2 ls th1 th2 =
      (if th2 < th1 then (ls 1, ls 3, ls 0) else (ls 0, ls 2, ls 3)) ∧
    val4_diagonal ls th1 th2 =
      (if th2 < th1 then (ls 1, ls 3) else (ls 0, ls 2)) := by
  intro ls th1 th2
  by_cases h : th2 < th1
  · have hne : ¬ th1 ≤ th2 := not_le.mpr h
    refine ⟨?_, ?_, ?_, ?_⟩ <;>
      simp [val4_chosen_dot, val4_tri1, val4_tri2, val4_diagonal, val4_ls,
        val4_flipped, h, min_def, hne]
  · have hle : th1 ≤ th2 := not_lt.mp h
    refine ⟨?_, ?_, ?_, ?_⟩ <;>
      simp [val4_chosen_dot, val4_tri1, val4_tri2, val4_diagonal, val4_ls,
        val4_flipped, h, min_def, hle]

/-- Claim C3, counterexample: for a face all three of whose edges were
tagged, the enlarged face is a hexagon with the three new midpoints at
loop positions 1, 3, 5, and the index consulted in phase 2 is 42, which
is outside [0,7] and differs from the edge-bit mask 7 the claim
describes. -/
theorem C3_mask_counterexample :
    face_split_mask (split_face_tags true true true) = 42 ∧
    claimed_edge_mask true true true = 7 ∧
    ¬ face_split_mask (split_face_tags true true true) ≤ 7 := by
  decide

/-- Claim C3 (amended): for every face with at least one tagged edge, the
index consulted in the split-pattern table is the bitmask over the
ENLARGED face whose bit i is set exactly when the i-th loop vertex is a
newly inserted midpoint; it always lies below the table size 43, and the
vertex count stored in the consulted row equals the length of the
enlarged face. -/
theorem C3_mask_amended : ∀ (t0 t1 t2 : Bool), (t0 || t1 || t2) = true →
    face_split_mask (split_face_tags t0 t1 t2) < splitmap_size ∧
    (splitmap (face_split_mask (split_face_tags t0 t1 t2))).headI =
      Int.ofNat (split_face_tags t0 t1 t2).length := by
  decide

/-- Claim C3 witness: with only edge 0 tagged, the mask is 2 < 43 and the
table row holds vertex count 4, the length of the enlarged face. -/
theorem C3_mask_amended_witness :
    face_split_mask (split_face_tags true false false) < splitmap_size ∧
    (splitmap (face_split_mask (split_face_tags true false false))).headI =
      Int.ofNat (split_face_tags true false false).length :=
  C3_mask_amended true false false (by decide)

/-- Claim C4, counterexample: an edge whose mask weight is 0 that reaches
the single-threaded merge (via the recursive expansion, which applies no
mask test) is NOT skipped: it is inserted with the fixed priority 100000,
and the pop-time filter, which never consults the mask, lets a candidate
of current squared length 1 below the threshold 4 proceed to collapse. -/
theorem C4_zero_mask_counterexample :
    short_merge_action 1 0 ⟨false, 0⟩ ⟨false, 0⟩ = some 100000 ∧
    collapse_pop_proceeds 4 ⟨some 1, some 2, true, 2, 1, 0, 0⟩ = true := by
  refine ⟨?_, ?_⟩
  · simp [short_merge_action]
  · decide

/-- Claim C4 (amended): the direct per-face collapse scan skips an edge
whose mask weight is 0; an edge reaching the merge with weight 0 is not
divided by the weight but assigned the fixed priority 100000 and still
inserted; and when the mask callback is absent the weight is 1.  No
division by a zero weight occurs anywhere. -/
theorem C4_zero_mask_amended : ∀ (len_sq limit : ℚ) (mv1 mv2 : MergeVert),
    short_scan_edge_pushes 0 len_sq limit = false ∧
    (mv1.all_corner = false → mv2.all_corner = false →
      mv1.all_boundary = mv2.all_boundary →
      short_merge_action len_sq 0 mv1 mv2 = some 100000) ∧
    (∀ v1 v2 : Nat, maskcb_get none v1 v2 = 1) := by
  intro len_sq limit mv1 mv2
  refine ⟨?_, fun h1 h2 h3 => ?_, fun v1 v2 => rfl⟩
  · simp [short_scan_edge_pushes]
  · simp [short_merge_action, h1, h2, h3]

/-- Claim C4 witness: a zero-weight edge is not pushed by the direct scan
yet is inserted by the merge with priority 100000. -/
theorem C4_zero_mask_amended_witness :
    short_scan_edge_pushes 0 1 4 = false ∧
    short_merge_action 1 0 ⟨false, 0⟩ ⟨false, 0⟩ = some 100000 :=
  ⟨(C4_zero_mask_amended 1 4 ⟨false, 0⟩ ⟨false, 0⟩).1,
   (C4_zero_mask_amended 1 4 ⟨false, 0⟩ ⟨false, 0⟩).2.1 rfl rfl rfl⟩

/-- Claim C5, counterexample: a popped candidate whose edge has exactly
ONE incident loop (a mesh-boundary edge), with the edge present, length
below threshold, and both owners valid, proceeds to collapse in the
code, while the predicate that claim C5 states (skip whenever the edge
does not have exactly 2 incident loops, or on any boundary or corner
incompatibility) says it is skipped. -/
theorem C5_pop_skip_counterexample :
    collapse_pop_proceeds 4 ⟨some 1, some 2, true, 1, 1, 0, 0⟩ = true ∧
    claimed_pop_skips 4 ⟨some 1, some 2, true, 1, 1, 0, 0⟩
      ⟨false, false, 0, 0⟩ = true := by
  decide

/-- Helper: characterization of the pop filter on a candidate whose two
chain lookups both succeeded. -/
theorem collapse_pop_proceeds_iff (m : ℚ) (a b : Nat) (ex : Bool) (rc : Nat)
    (ls : ℚ) (n1 n2 : Int) :
    collapse_pop_proceeds m ⟨some a, some b, ex, rc, ls, n1, n2⟩ = true ↔
      (a ≠ b ∧ ex = true ∧ rc < 3 ∧ ls < m ∧ n1 ≠ -1 ∧ n2 ≠ -1) := by
  dsimp only [collapse_pop_proceeds]
  by_cases hab : a = b
  · simp [hab]
  · rw [if_neg hab]
    cases ex
    · simp
    · rw [if_neg (by simp)]
      by_cases hrc : 3 ≤ rc
      · rw [if_pos hrc]
        simp [not_lt.mpr hrc]
      · rw [if_neg hrc]
        by_cases hls : m ≤ ls
        · rw [if_pos hls]
          simp [not_lt.mpr hls]
        · rw [if_neg hls]
          by_cases hn1 : n1 = -1
          · simp [hn1]
          · by_cases hn2 : n2 = -1
            · simp [hn2]
            · have h3 : rc < 3 := by omega
              have h4 : ls < m := not_le.mp hls
              simp [hab, hn1, hn2, h3, h4]

/-- Claim C5 (amended): the pop proceeds exactly when both queue vertices
resolve through the deleted-vertices chain to distinct live vertices, an
edge still joins them, its radial cycle has fewer than 3 loops, its
current squared length is below the threshold, and neither owner is
NONE.  Boundary-class and corner compatibility are not re-checked at pop
time: they are enforced when the queue is built, where the merge drops
any edge with a corner endpoint or mismatched boundary classes. -/
theorem C5_pop_skip_amended : ∀ (min_len_sq : ℚ) (c : PopCandidate),
    (collapse_pop_proceeds min_len_sq c = true ↔
      (∃ a b : Nat, c.chain_v1 = some a ∧ c.chain_v2 = some b ∧ a ≠ b) ∧
      c.edge_exists = true ∧ c.radial_count < 3 ∧ c.len_sq < min_len_sq ∧
      c.v1_node ≠ -1 ∧ c.v2_node ≠ -1) ∧
    (∀ (len_sq w2 : ℚ) (mv1 mv2 : MergeVert),
      mv1.all_corner = true ∨ mv2.all_corner = true ∨
        mv1.all_boundary ≠ mv2.all_boundary →
      short_merge_action len_sq w2 mv1 mv2 = none) := by
  intro min_len_sq c
  constructor
  · obtain ⟨o1, o2, ex, rc, ls, n1, n2⟩ := c
    cases o1 with
    | none => simp [collapse_pop_proceeds]
    | some a =>
      cases o2 with
      | none => simp [collapse_pop_proceeds]
      | some b =>
        rw [collapse_pop_proceeds_iff]
        simp
  · intro len_sq w2 mv1 mv2 h
    rcases h with h | h | h <;> simp [short_merge_action, h]

/-- Claim C5 witness: a manifold candidate (2 loops) passing every check
proceeds, and the merge drops an edge whose first endpoint is a corner. -/
theorem C5_pop_skip_amended_witness :
    collapse_pop_proceeds 4 ⟨some 1, some 2, true, 2, 1, 0, 0⟩ = true ∧
    short_merge_action 1 1 ⟨true, 0⟩ ⟨false, 0⟩ = none :=
  ⟨(C5_pop_skip_amended 4 ⟨some 1, some 2, true, 2, 1, 0, 0⟩).1.mpr
      ⟨⟨1, 2, rfl, rfl, by decide⟩, rfl, by decide, by norm_num, by decide,
        by decide⟩,
   (C5_pop_skip_amended 4 ⟨some 1, some 2, true, 2, 1, 0, 0⟩).2 1 1
      ⟨true, 0⟩ ⟨false, 0⟩ (Or.inl rfl)⟩

/-- Claim C6: for a SEAM edge the collapse proceeds exactly when each of
the two endpoints has at least one other SEAM edge; for a non-seam edge
the gate never blocks. -/
theorem C6_seam_gate : ∀ (v1_other v2_other : List Bool),
    (collapse_seam_proceeds true v1_other v2_other = true ↔
      ((∃ s ∈ v1_other, s = true) ∧ (∃ s ∈ v2_other, s = true))) ∧
    collapse_seam_proceeds false v1_other v2_other = true := by
  intro v1_other v2_other
  have e1 : (∃ s ∈ v1_other, s = true) ↔ v1_other.any id = true := by
    simp [List.any_eq_true, id]
  have e2 : (∃ s ∈ v2_other, s = true) ↔ v2_other.any id = true := by
    simp [List.any_eq_true, id]
  refine ⟨⟨fun h => ?_, fun h => ?_⟩, rfl⟩
  · by_cases h1 : v1_other.any id = true <;> by_cases h2 : v2_other.any id = true
    · exact ⟨e1.mpr h1, e2.mpr h2⟩
    all_goals (exfalso; revert h; simp [collapse_seam_proceeds, h1, h2])
  · obtain ⟨ha, hb⟩ := h
    simp [collapse_seam_proceeds, e1.mp ha, e2.mp hb]

/-- Claim C6 witness: a seam edge both of whose endpoints have another
seam edge passes the gate. -/
theorem C6_seam_gate_witness :
    collapse_seam_proceeds true [false, true] [true] = true :=
  (C6_seam_gate [false, true] [true]).1.mpr
    ⟨⟨true, by decide, rfl⟩, ⟨true, by decide, rfl⟩⟩

/-- Claim C7, counterexample: with a non-empty queue (totedge = 1) whose
only counted edge has length 0 (so the length sum and the maximum are
both 0) and a positive minimum target length 1, the code leaves the
scale factor at 1.0 because its guard requires a positive average, while
the formula of the claim evaluates to the clamp lower bound 1/4. -/
theorem C7_rate_counterexample :
    skinny_scale 1 0 0 1 = 1 ∧
    claimed_scale 1 0 0 1 = 1/4 ∧
    skinny_scale 1 0 0 1 ≠ claimed_scale 1 0 0 1 := by
  have h1 : skinny_scale 1 0 0 1 = 1 := by
    norm_num [skinny_scale]
  have h2 : claimed_scale 1 0 0 1 = 1/4 := by
    norm_num [claimed_scale, min_def, max_def]
  refine ⟨h1, h2, ?_⟩
  rw [h1, h2]
  norm_num

/-- Claim C7 (amended): when the queue statistics counted at least one
edge, the minimum target length is positive, the average counted length
is positive and the maximum counted length is nonzero, the scale factor
equals avg / (0.5 min_target + 0.5 max_observed) clamped to [1/4, 5],
and the collapse step budget is the integer floor of 4096 times that
factor; outside those guards the factor stays 1. -/
theorem C7_rate_amended : ∀ (minlen avg_sum max_elen totedge : ℚ),
    0 < totedge → 0 < minlen → 0 < avg_sum / totedge → max_elen ≠ 0 →
    skinny_scale minlen avg_sum max_elen totedge =
      claimed_scale minlen avg_sum max_elen totedge ∧
    collapse_max_steps (skinny_scale minlen avg_sum max_elen totedge) =
      Int.floor ((4096 : ℚ) * claimed_scale minlen avg_sum max_elen totedge) := by
  intro minlen avg_sum max_elen totedge h1 h2 h3 h4
  have hs : skinny_scale minlen avg_sum max_elen totedge =
      claimed_scale minlen avg_sum max_elen totedge := by
    unfold skinny_scale claimed_scale
    rw [if_pos h1]
    dsimp only
    rw [if_neg h4, if_pos ⟨h2, h3⟩]
  refine ⟨hs, ?_⟩
  rw [hs]
  rfl

/-- Claim C7 witness: with min target 1, length sum 2 over 2 edges and
maximum 2, the guarded factor agrees with the clamped formula. -/
theorem C7_rate_amended_witness :
    skinny_scale 1 2 2 2 = claimed_scale 1 2 2 2 ∧
    collapse_max_steps (skinny_scale 1 2 2 2) =
      Int.floor ((4096 : ℚ) * claimed_scale 1 2 2 2) :=
  C7_rate_amended 1 2 2 2 (by norm_num) (by norm_num) (by norm_num)
    (by norm_num)

/-- Claim C8: with front-face mode on, a face whose normal has negative
dot product with the view normal is skipped by both the subdivide scan
and the collapse scan, so neither pushes any edge from that face. -/
theorem C8_frontface : ∀ (fno vn : Vec3) (in_range : Bool) (edges : List Nat),
    dot_v3v3 fno vn < 0 →
    long_scan_face_edges true fno vn in_range edges = [] ∧
    short_scan_face_edges true fno vn in_range edges = [] := by
  intro fno vn in_range edges h
  constructor <;>
    simp [long_scan_face_edges, short_scan_face_edges, long_scan_culls,
      short_scan_culls, h]

/-- Claim C8 witness: the triangle with normal (-1,0,0) under view normal
(1,0,0) contributes no edges to either scan. -/
theorem C8_frontface_witness :
    long_scan_face_edges true ⟨-1, 0, 0⟩ ⟨1, 0, 0⟩ true [5, 7] = [] ∧
    short_scan_face_edges true ⟨-1, 0, 0⟩ ⟨1, 0, 0⟩ true [5, 7] = [] :=
  C8_frontface ⟨-1, 0, 0⟩ ⟨1, 0, 0⟩ true [5, 7] (by norm_num [dot_v3v3])

/-- Claim C9: when the paint-mask layer exists (offset differs from -1)
and either endpoint is hidden, edge_queue_insert leaves the statistics
and the heap completely unchanged. -/
theorem C9_hidden_skip : ∀ (cd : Int) (h1 h2 : Bool) (v1 v2 : Nat)
    (len pri : ℚ) (s : EdgeQueueStats),
    cd ≠ -1 → (h1 = true ∨ h2 = true) →
    edge_queue_insert cd h1 h2 v1 v2 len pri s = s := by
  intro cd h1 h2 v1 v2 len pri s hcd hh
  have hb : (cd == -1) = false := by
    rw [beq_eq_false_iff_ne]
    exact hcd
  have ho : (h1 || h2) = true := by
    rcases hh with h | h <;> simp [h]
  simp [edge_queue_insert, hb, ho]

/-- Claim C9 witness: with mask offset 0 and the first endpoint hidden,
the statistics block is returned untouched. -/
theorem C9_hidden_skip_witness :
    edge_queue_insert 0 true false 1 2 (3/2) 9 ⟨0, 0, 0, 0, []⟩ =
      ⟨0, 0, 0, 0, []⟩ :=
  C9_hidden_skip 0 true false 1 2 (3/2) 9 ⟨0, 0, 0, 0, []⟩ (by decide)
    (Or.inl rfl)

/-- Claim C10, counterexample: after a modifying call, a fully hidden
leaf carrying PBVH_UpdateTopology is left untouched by the clearing
pass, so it retains the flag, contradicting the claim that no leaf
retains it. -/
theorem C10_clear_counterexample :
    update_topology_clear_pass true [⟨true, true, true⟩] =
      [⟨true, true, true⟩] ∧
    ∃ n ∈ update_topology_clear_pass true [⟨true, true, true⟩],
      n.is_leaf = true ∧ n.update_topo = true := by
  refine ⟨by decide, ⟨⟨true, true, true⟩, by decide, rfl, rfl⟩⟩

/-- Claim C10 (amended): when the call made no change, the flag is
cleared on every leaf that had it; when the call modified the mesh, it
is cleared on every NON-fully-hidden leaf, while a fully hidden node is
left unchanged and so retains the flag. -/
theorem C10_clear_amended : ∀ (modified : Bool) (nodes : List NodeState),
    (modified = false → ∀ n ∈ update_topology_clear_pass modified nodes,
      n.is_leaf = true → n.update_topo = false) ∧
    (modified = true → ∀ n ∈ update_topology_clear_pass modified nodes,
      n.is_leaf = true → n.fully_hidden = false → n.update_topo = false) ∧
    (modified = true → ∀ n ∈ nodes, n.fully_hidden = true →
      update_topology_flag_clear modified n = n) := by
  intro modified nodes
  refine ⟨?_, ?_, ?_⟩
  · rintro rfl n hn hleaf
    simp only [update_topology_clear_pass, List.mem_map] at hn
    obtain ⟨m, hm, rfl⟩ := hn
    obtain ⟨a, b, cfl⟩ := m
    cases a <;> cases b <;> cases cfl <;>
      simp_all [update_topology_flag_clear]
  · rintro rfl n hn hleaf hhid
    simp only [update_topology_clear_pass, List.mem_map] at hn
    obtain ⟨m, hm, rfl⟩ := hn
    obtain ⟨a, b, cfl⟩ := m
    cases a <;> cases b <;> cases cfl <;>
      simp_all [update_topology_flag_clear]
  · rintro rfl n hn hhid
    obtain ⟨a, b, cfl⟩ := n
    cases a <;> cases b <;> cases cfl <;>
      simp_all [update_topology_flag_clear]

/-- Claim C10 witness: a visible leaf has the flag cleared after an
unmodified call, and a fully hidden node survives a modifying call
unchanged. -/
theorem C10_clear_amended_witness :
    (∀ n ∈ update_topology_clear_pass false [⟨true, true, false⟩],
      n.is_leaf = true → n.update_topo = false) ∧
    update_topology_flag_clear true ⟨true, true, true⟩ = ⟨true, true, true⟩ :=
  ⟨(C10_clear_amended false [⟨true, true, false⟩]).1 rfl,
   (C10_clear_amended true [⟨true, true, true⟩]).2.2 rfl ⟨true, true, true⟩
     (by decide) rfl⟩
